import Mathlib

/-!
Verification development for the Stratus schema-management toolkit.

The Rust sources are embedded shallowly:

* `HashMap<String, V>` values are represented as association lists
  `List (String × V)`.  The list order stands for the map's iteration
  order, which in Rust is arbitrary (seeded per process); definitions
  that iterate a map therefore take the order from the list.
* Fallible operations return `Except String`.
* SHA-256 is not computed; workflows that need it take the hex function
  as an explicit parameter `hash : String → String` and claims quantify
  over it.
* Ambient inputs of the CLI (current time, random suffix, `USER`) are
  passed as explicit parameters.
-/

/-! ## Schema model (src/schema.rs) -/

inductive StorageType where
  | plain
  | external
  | extended
  | main
deriving DecidableEq

inductive OnDeleteAction where
  | cascade
  | setNull
  | setDefault
  | restrict
  | noAction
  | none
deriving DecidableEq

inductive OnUpdateAction where
  | cascade
  | setNull
  | setDefault
  | restrict
  | noAction
  | none
deriving DecidableEq

inductive MatchType where
  | full
  | partial_
  | simple
deriving DecidableEq

structure ForeignKey where
  table : String
  column : String
  on_delete : Option OnDeleteAction
  on_update : Option OnUpdateAction
  match_type : Option MatchType
deriving DecidableEq

structure SequenceOptions where
  start : Option Int
  minvalue : Option Int
  maxvalue : Option Int
  increment : Option Int
  cycle : Bool
deriving DecidableEq

structure Identity where
  sequence : Option SequenceOptions
  always : Bool
deriving DecidableEq

structure GeneratedAs where
  always : Bool
  expression : Option String
deriving DecidableEq

structure ColumnAttributes where
  is_identity : Bool := false
  is_generated : Bool := false
  is_computed : Bool := false
  compression : Option String := none
deriving DecidableEq

structure Column where
  column_name : String
  data_type : String
  size : Option Nat := none
  array_dimensions : Option Nat := none
  is_primary_key : Bool := false
  is_not_null : Bool := false
  is_unique : Bool := false
  default : Option String := none
  identity : Option Identity := none
  generated : Option GeneratedAs := none
  collation : Option String := none
  storage : Option StorageType := none
  statistics : Option Int := none
  attributes : ColumnAttributes := {}
  references : Option ForeignKey := none
deriving DecidableEq

inductive IndexMethod where
  | btree
  | hash
  | gist
  | spgist
  | gin
  | brin
  | other
deriving DecidableEq

structure IndexWithOptions where
  fillfactor : Option Nat
  deduplicate_items : Option Bool
  buffering : Option Bool
  fastupdate : Option Bool
  pages_per_range : Option Nat
deriving DecidableEq

structure Index where
  name : String
  columns : List String
  unique : Bool := false
  if_not_exists : Bool := false
  method : Option IndexMethod := none
  tablespace : Option String := none
  with_options : Option IndexWithOptions := none
  where_clause : Option String := none
  nulls_not_distinct : Option Bool := none
deriving DecidableEq

inductive ConstraintType where
  | primaryKey
  | unique
  | check
  | exclude
  | foreignKey
deriving DecidableEq

structure TableConstraint where
  name : Option String
  constraint_type : ConstraintType
  columns : List String := []
  expression : Option String := none
  references : Option ForeignKey := none
  deferrable : Bool := false
  initially_deferred : Bool := false
deriving DecidableEq

inductive PartitionType where
  | range
  | list
  | hash
deriving DecidableEq

structure Partition where
  name : String
  partition_type : PartitionType
  key : List String
  range_from : Option (List String) := none
  range_to : Option (List String) := none
  values : Option (List String) := none
  tablespace : Option String := none
deriving DecidableEq

structure TableOptions where
  tablespace : Option String := none
  fillfactor : Option Nat := none
  toast_tuple_target : Option Nat := none
  autovacuum_enabled : Option Bool := none
deriving DecidableEq

structure Table where
  columns : List (String × Column)
  indexes : Option (List Index) := none
  constraints : Option (List TableConstraint) := none
  options : TableOptions := {}
  partitions : List Partition := []
  inherits : List String := []
deriving DecidableEq

structure Schema where
  version : Option String := none
  dialect : Option String := none
  tables : List (String × Table)
  enums : Option (List (String × List String)) := none
deriving DecidableEq

/-! ## Database model (src/db.rs) -/

structure DbColumn where
  name : String
  data_type : String
  is_nullable : Bool
  is_primary_key : Bool
  default_value : Option String
  size : Option Nat
deriving DecidableEq

structure DbTable where
  name : String
  columns : List (String × DbColumn)
  primary_key : List String
deriving DecidableEq

structure DbSchema where
  tables : List (String × DbTable)
  enums : List (String × List String)
  dialect : String
deriving DecidableEq

structure SchemaDiff where
  create_tables : List String := []
  alter_tables : List String := []
  drop_tables : List String := []
  create_columns : List (String × List DbColumn) := []
  alter_columns : List (String × List DbColumn) := []
  drop_columns : List (String × List String) := []
  create_enums : List String := []
  drop_enums : List String := []
  data_loss_warning : List String := []
  sql : String := ""
deriving DecidableEq

/-- Association-list lookup, modelling `HashMap::get` / `contains_key`. -/
def alistLookup {α : Type} (l : List (String × α)) (k : String) : Option α :=
  (l.find? (fun p => p.1 == k)).map (·.2)

/-- Models `map.entry(k).or_insert_with(Vec::new).push(v)`: the value list of an
existing key grows at its end; a fresh key is appended, so iteration shows keys
in insertion order. -/
def alistPush {α : Type} (l : List (String × List α)) (k : String) (v : α) :
    List (String × List α) :=
  match l with
  | [] => [(k, [v])]
  | (k', vs) :: rest =>
    if k' == k then (k', vs ++ [v]) :: rest else (k', vs) :: alistPush rest k v

/-- Embeds `db.rs::map_type_to_sql`. -/
def map_type_to_sql (schema_type : String) (size : Option Nat) : String :=
  if schema_type == "varchar" || schema_type == "char" then
    match size with
    | some s => "VARCHAR(" ++ toString s ++ ")"
    | none => "VARCHAR(255)"
  else if schema_type == "decimal" then "DECIMAL(10, 2)"
  else if schema_type == "bigint" then "BIGINT"
  else if schema_type == "integer" then "INTEGER"
  else if schema_type == "smallint" then "SMALLINT"
  else if schema_type == "float" || schema_type == "double" then "DOUBLE PRECISION"
  else if schema_type == "boolean" then "BOOLEAN"
  else if schema_type == "date" then "DATE"
  else if schema_type == "timestamp" || schema_type == "timestamptz" then
    "TIMESTAMP WITH TIME ZONE"
  else if schema_type == "json" then "JSON"
  else if schema_type == "jsonb" then "JSONB"
  else if schema_type == "text" then "TEXT"
  else if schema_type == "uuid" then "UUID"
  else if schema_type == "bytea" then "BYTEA"
  else schema_type

/-- Renders one non-primary-key column inside `generate_create_table_sql`
(the body of the `for (col_name, col)` loop in `db.rs`). -/
def renderColumn (acc : String × Bool) (col_name : String) (col : Column) :
    String × Bool :=
  if col.is_primary_key then acc
  else
    let sql := acc.1
    let first := acc.2
    let sql := if !first then sql ++ ",\n" else sql
    let sql := sql ++ "  " ++ col_name
    let sql := sql ++ " " ++ map_type_to_sql col.data_type col.size
    let sql := if !col.is_not_null then sql ++ " NULL" else sql ++ " NOT NULL"
    let sql :=
      match col.default with
      | some d => sql ++ " DEFAULT " ++ d
      | none => sql
    let sql := if col.generated.isSome then sql ++ " GENERATED ALWAYS AS IDENTITY" else sql
    (sql, false)

/-- Embeds `db.rs::generate_create_table_sql`.  The `dialect` argument is
unused, exactly as in the source. -/
def generate_create_table_sql (table_name : String) (table : Table)
    (_dialect : String) : String :=
  let sql := "CREATE TABLE " ++ table_name ++ " (\n"
  let first := true
  let pk_cols := (table.columns.filter (fun p => p.2.is_primary_key)).map (·.1)
  let (sql, first) :=
    if !pk_cols.isEmpty then
      (sql ++ "  PRIMARY KEY (" ++ String.intercalate ", " pk_cols ++ ")\n", false)
    else (sql, first)
  let (sql, _) := table.columns.foldl (fun acc p => renderColumn acc p.1 p.2) (sql, first)
  let sql := sql ++ "\n)"
  let sql :=
    match table.options.fillfactor with
    | some opts => sql ++ " WITH (fillfactor = " ++ toString opts ++ ")"
    | none => sql
  sql ++ ";"

/-- Conversion used when `compare_schemas` records a new column
(the `DbColumn { .. }` literal inside the create-columns loop). -/
def dbColumnOfJson (col_name : String) (json_col : Column) : DbColumn :=
  { name := col_name
    data_type := json_col.data_type
    is_nullable := !json_col.is_not_null
    is_primary_key := json_col.is_primary_key
    default_value := json_col.default
    size := json_col.size }

/-- Contents of the `diff.create_columns` map built by the create-columns
loop of `compare_schemas`, listed in insertion order (outer loop over the
declared tables, inner loop over each table's columns). -/
def buildCreateColumns (json_tables : List (String × Table))
    (db_tables : List (String × DbTable)) : List (String × List DbColumn) :=
  json_tables.foldl (fun acc tp =>
    match alistLookup db_tables tp.1 with
    | none => acc
    | some db_table =>
      tp.2.columns.foldl (fun acc2 cp =>
        if (alistLookup db_table.columns cp.1).isSome then acc2
        else alistPush acc2 tp.1 (dbColumnOfJson cp.1 cp.2)) acc) []

/-- Contents of the `diff.drop_columns` map built by the drop-columns loop of
`compare_schemas`, in insertion order, together with the column data-loss
warnings, which the source pushes during the same loop (so their order
follows the live-table iteration, not the map's own order). -/
def buildDropColumns (json_tables : List (String × Table))
    (db_tables : List (String × DbTable)) : List (String × List String) × List String :=
  db_tables.foldl (fun acc tp =>
    match alistLookup json_tables tp.1 with
    | none => acc
    | some json_table =>
      tp.2.columns.foldl (fun acc2 cp =>
        if (alistLookup json_table.columns cp.1).isSome then acc2
        else
          (alistPush acc2.1 tp.1 cp.1,
           acc2.2 ++ ["Column '" ++ tp.1 ++ "." ++ cp.1 ++ "' will be dropped"])) acc)
    ([], [])

/-- Embeds `db.rs::compare_schemas`.  The function reads only the `tables`
maps of its two arguments; `alter_tables`, `alter_columns`, `create_enums`
and `drop_enums` are never filled in the source, which starts from
`SchemaDiff::default()` and never touches those fields.

Besides the iteration order of the two input table maps (carried by their
association lists), the source has a second arbitrary-order ingredient: the
`create_columns` and `drop_columns` `HashMap`s it builds internally are
iterated in per-process arbitrary order, both by the SQL-emission loops here
and by every later reader of the returned diff (`generate_rollback` included).
`ordC` and `ordD` supply that iteration order as a reordering of the maps'
contents; each map is reordered once and the resulting list is both iterated
for SQL and stored in the diff, mirroring how one `HashMap` object presents
one fixed order to all its readers within a process. -/
def compare_schemas_ord
    (ordC : List (String × List DbColumn) → List (String × List DbColumn))
    (ordD : List (String × List String) → List (String × List String))
    (json_schema : Schema) (db_schema : DbSchema) : SchemaDiff :=
  let create_tables :=
    (json_schema.tables.filter (fun p => (alistLookup db_schema.tables p.1).isNone)).map (·.1)
  let dropPairs :=
    db_schema.tables.filter (fun p => (alistLookup json_schema.tables p.1).isNone)
  let drop_tables := dropPairs.map (·.1)
  let tableWarnings :=
    dropPairs.map (fun p => "Table '" ++ p.1 ++ "' will be dropped with all data")
  let create_columns := ordC (buildCreateColumns json_schema.tables db_schema.tables)
  let dropBuilt := buildDropColumns json_schema.tables db_schema.tables
  let drop_columns := ordD dropBuilt.1
  let columnWarnings := dropBuilt.2
  let sql :=
    drop_columns.foldl (fun s tcols =>
      tcols.2.foldl (fun s2 col =>
        s2 ++ "ALTER TABLE " ++ tcols.1 ++ " DROP COLUMN IF EXISTS " ++ col ++ ";\n") s) ""
  let sql :=
    drop_tables.foldl (fun s t => s ++ "DROP TABLE IF EXISTS " ++ t ++ " CASCADE;\n") sql
  let sql :=
    create_tables.foldl (fun s t =>
      match alistLookup json_schema.tables t with
      | some table =>
        s ++ "\n-- Create table " ++ t ++ "\n"
          ++ generate_create_table_sql t table "postgresql" ++ "\n"
      | none => s) sql
  let sql :=
    create_columns.foldl (fun s tcols =>
      tcols.2.foldl (fun s2 col =>
        s2 ++ "ALTER TABLE " ++ tcols.1 ++ " ADD COLUMN " ++ col.name ++ " "
          ++ map_type_to_sql col.data_type col.size ++ " "
          ++ (if col.is_nullable then "NULL" else "NOT NULL") ++ ";\n") s) sql
  { create_tables := create_tables
    alter_tables := []
    drop_tables := drop_tables
    create_columns := create_columns
    alter_columns := []
    drop_columns := drop_columns
    create_enums := []
    drop_enums := []
    data_loss_warning := tableWarnings ++ columnWarnings
    sql := sql }

/-- `compare_schemas` at one admissible internal iteration order (`id`, i.e.
insertion order).  Facts proved about this instantiation hold of every run
whose internal `HashMap`s happen to iterate in that order; the statements
below that use it are order-independent (their internal maps are empty, or
they assert emptiness or invariance), except where `compare_schemas_ord` is
quantified explicitly. -/
def compare_schemas (json_schema : Schema) (db_schema : DbSchema) : SchemaDiff :=
  compare_schemas_ord id id json_schema db_schema

/-- Embeds `SchemaDiff::has_changes`. -/
def SchemaDiff.has_changes (d : SchemaDiff) : Bool :=
  !d.create_tables.isEmpty || !d.alter_tables.isEmpty || !d.drop_tables.isEmpty
    || !d.create_columns.isEmpty || !d.alter_columns.isEmpty || !d.drop_columns.isEmpty

/-- Embeds `SchemaDiff::checksum`; `hash` stands for the SHA-256 hex digest. -/
def SchemaDiff.checksum (hash : String → String) (d : SchemaDiff) : String :=
  "sha256:" ++ hash d.sql

/-- Embeds `SchemaDiff::generate_rollback`. -/
def SchemaDiff.generate_rollback (d : SchemaDiff) : String :=
  let sql :=
    d.create_tables.foldl (fun s t => s ++ "DROP TABLE IF EXISTS " ++ t ++ " CASCADE;\n") ""
  let sql :=
    d.create_columns.foldl (fun s tcols =>
      tcols.2.foldl (fun s2 col =>
        s2 ++ "ALTER TABLE " ++ tcols.1 ++ " DROP COLUMN IF EXISTS " ++ col.name ++ ";\n") s) sql
  d.drop_tables.foldl (fun s t =>
    s ++ "-- Recreate table " ++ t ++ " (you may need to restore from backup)\n"
      ++ "-- This is a placeholder - manual intervention may be required\n") sql

/-- Embeds `DbSchema::to_json_schema`. -/
def DbSchema.to_json_schema (s : DbSchema) : Schema :=
  { version := some "1"
    dialect := some s.dialect
    tables := s.tables.map (fun tp =>
      (tp.1,
       { columns := tp.2.columns.map (fun cp =>
           (cp.1,
            { column_name := cp.2.name
              data_type := cp.2.data_type
              size := cp.2.size
              array_dimensions := none
              is_primary_key := cp.2.is_primary_key
              is_not_null := !cp.2.is_nullable
              is_unique := false
              default := cp.2.default_value
              identity := none
              generated := none
              collation := none
              storage := none
              statistics := none
              attributes := {}
              references := none }))
         indexes := none
         constraints := none
         options := {}
         partitions := []
         inherits := [] }))
    enums := some s.enums }

/-! ## Migration store (src/migrate.rs) -/

structure MigrationMeta where
  id : String
  name : String
  created_at : String
  dialect : String
  checksum : Option String
  status : String
  created_by : Option String
  applied_at : Option String
deriving DecidableEq

structure Migration where
  meta : MigrationMeta
  up_sql : String
  down_sql : String
  applied : Bool
  applied_at : Option String
deriving DecidableEq

/-- Decimal digits of `n`, most significant first, as produced by Rust's
`{}` formatting of an unsigned integer.  `fuel` bounds the recursion and is
irrelevant once it exceeds `n` (see `natToDecAux_fuel`). -/
def natToDecAux : Nat → Nat → List Char
  | 0, _ => []
  | fuel + 1, n =>
    if n < 10 then [Nat.digitChar n]
    else natToDecAux fuel (n / 10) ++ [Nat.digitChar (n % 10)]

/-- Decimal rendering of a natural number (Rust `format!("{}", n)`). -/
def natToDec (n : Nat) : String :=
  ⟨natToDecAux (n + 1) n⟩

/-- Embeds the id allocation in `create_migration`:
`format!("{:}_{}", timestamp, random_suffix)`. -/
def migrationId (timestamp : Nat) (random_suffix : Nat) : String :=
  natToDec timestamp ++ "_" ++ natToDec random_suffix

/-- Embeds the name normalization in `create_migration`:
`name.to_lowercase().replace('_', "-").replace(' ', "-")`. -/
def formatKebab (name : String) : String :=
  ⟨name.data.map (fun c =>
    let c' := c.toLower
    if c' == '_' || c' == ' ' then '-' else c')⟩

/-- Embeds the pure content of `migrate.rs::create_migration`: the metadata
and record written for a new migration.  Filesystem writes, the clock, the
random suffix and the `USER` variable are ambient effects; the fresh id,
creation timestamp and creator arrive as parameters. -/
def create_migration (name up_sql down_sql dialect : String)
    (checksum : Option String) (freshId created_at : String)
    (created_by : Option String) : Migration :=
  { meta :=
      { id := freshId
        name := formatKebab name
        created_at := created_at
        dialect := dialect
        checksum := checksum
        status := "draft"
        created_by := created_by
        applied_at := none }
    up_sql := up_sql
    down_sql := down_sql
    applied := false
    applied_at := none }

deriving instance DecidableEq for Except

/-- One subdirectory of the migrations directory, as `load_migrations` sees
it: whether it is a directory, the parse result of `meta.json` when that file
exists, and the contents of `up.sql` / `down.sql` when those files exist. -/
structure DirEntry where
  isDir : Bool
  meta : Option (Except String MigrationMeta)
  upSql : Option String
  downSql : Option String
deriving DecidableEq

/-- The migrations directory: whether it exists, and its entries in
`read_dir` order. -/
structure MigrationsDir where
  dirExists : Bool
  entries : List DirEntry
deriving DecidableEq

/-- Collection phase of `load_migrations`: skip non-directories and entries
without `meta.json`, fail on an unparsable `meta.json`, and read each script
as the empty string when its file is absent. -/
def collectMigrations : List DirEntry → Except String (List Migration)
  | [] => .ok []
  | e :: rest =>
    if !e.isDir then collectMigrations rest
    else
      match e.meta with
      | none => collectMigrations rest
      | some (.error msg) => .error ("Failed to parse meta.json: " ++ msg)
      | some (.ok meta) =>
        let up_sql := e.upSql.getD ""
        let down_sql := e.downSql.getD ""
        match collectMigrations rest with
        | .error msg => .error msg
        | .ok ms =>
          .ok ({ meta := meta, up_sql := up_sql, down_sql := down_sql,
                 applied := false, applied_at := none } :: ms)

/-- Stable insertion into a list sorted ascending by `meta.id`; an element is
placed after every existing element whose id is `≤` its own, matching the
stability of Rust's `sort_by`. -/
def insertById (m : Migration) : List Migration → List Migration
  | [] => [m]
  | x :: xs =>
    if x.meta.id ≤ m.meta.id then x :: insertById m xs else m :: x :: xs

/-- Embeds `migrations.sort_by(|a, b| a.meta.id.cmp(&b.meta.id))`
(stable ascending sort on the id string). -/
def sortById (l : List Migration) : List Migration :=
  l.foldl (fun acc m => insertById m acc) []

/-- Embeds `migrate.rs::load_migrations`. -/
def load_migrations (dir : MigrationsDir) : Except String (List Migration) :=
  if !dir.dirExists then .ok []
  else
    match collectMigrations dir.entries with
    | .error msg => .error msg
    | .ok ms => .ok (sortById ms)

/-- Embeds `migrate.rs::generate_migration_name`. -/
def generate_migration_name (fromSchema toSchema : Schema) : String :=
  let new_tables :=
    (toSchema.tables.map (·.1)).filter
      (fun k => (alistLookup fromSchema.tables k).isNone)
  let changes :=
    if new_tables.isEmpty then []
    else ["add-" ++ String.intercalate "-and-" new_tables]
  let dropped_tables :=
    (fromSchema.tables.map (·.1)).filter
      (fun k => (alistLookup toSchema.tables k).isNone)
  let changes :=
    changes ++
      (if dropped_tables.isEmpty then []
       else ["remove-" ++ String.intercalate "-and-" dropped_tables])
  if changes.isEmpty then "update-schema" else String.intercalate "-" changes

/-! ## Application engine (src/main.rs) -/

/-- Terminal outcome of a `sync` invocation, from the point where the schema
is parsed and the database introspected. -/
inductive SyncOutcome where
  /-- `✓ Database is in sync with schema.json` -/
  | inSync
  /-- `⚠️  Migration already exists with same changes: <name>` -/
  | alreadyExists (name : String)
  /-- migration created, `[DRY RUN] Skipping database application` -/
  | createdDryRun
  /-- migration created, up SQL committed -/
  | appliedOk
  /-- migration created, up SQL failed, transaction rolled back -/
  | applyFailed
deriving DecidableEq

structure SyncState where
  outcome : SyncOutcome
  /-- migrations persisted on disk after the run -/
  store : List Migration
  /-- whether the up SQL was submitted to the database -/
  ddlExecuted : Bool
  exitCode : Nat
deriving DecidableEq

/-- Embeds the `Commands::Sync` handler of `main.rs` from the point where the
declared schema is parsed, the existing migrations are loaded and the live
schema introspected.  `execOk` models whether the database accepts the up
SQL; `freshId`, `created_at`, `created_by` model the ambient inputs of
`create_migration`.  The handler never rewrites `meta.json` after applying:
the persisted status stays `draft` on both the commit and the rollback path. -/
def sync_run (hash : String → String) (parsed_schema : Schema)
    (db_schema : DbSchema) (existing : List Migration)
    (force dry_run : Bool) (nameOpt : Option String)
    (freshId created_at : String) (created_by : Option String)
    (execOk : Bool) : SyncState :=
  let diff := compare_schemas parsed_schema db_schema
  if !diff.has_changes then
    { outcome := .inSync, store := existing, ddlExecuted := false, exitCode := 0 }
  else
    let diff_checksum := diff.checksum hash
    match
      (if force then none
       else existing.find? (fun m => m.meta.checksum == some diff_checksum)) with
    | some m =>
      { outcome := .alreadyExists m.meta.name, store := existing,
        ddlExecuted := false, exitCode := 0 }
    | none =>
      let migration_name :=
        nameOpt.getD (generate_migration_name db_schema.to_json_schema parsed_schema)
      let up_sql := diff.sql
      let down_sql := diff.generate_rollback
      let m := create_migration migration_name up_sql down_sql "postgresql"
        (some diff_checksum) freshId created_at created_by
      let store := existing ++ [m]
      if dry_run then
        { outcome := .createdDryRun, store := store, ddlExecuted := false, exitCode := 0 }
      else if execOk then
        { outcome := .appliedOk, store := store, ddlExecuted := true, exitCode := 0 }
      else
        { outcome := .applyFailed, store := store, ddlExecuted := true, exitCode := 1 }

/-- The migration loop of the `Commands::Deploy` handler: executes each
pending migration in its own transaction and stops after the first failure.
Returns the ids whose up SQL was submitted and whether a failure occurred. -/
def deployLoop (execOk : String → Bool) : List Migration → List String × Bool
  | [] => ([], false)
  | m :: rest =>
    if execOk m.up_sql then
      let r := deployLoop execOk rest
      (m.meta.id :: r.1, r.2)
    else ([m.meta.id], true)

structure DeployResult where
  pending : List Migration
  executed : List String
  failed : Bool
  exitCode : Nat
deriving DecidableEq

/-- Embeds the `Commands::Deploy` handler of `main.rs` from the point where
the migrations are loaded.  The source filters with
`!m.applied && m.meta.status != "failed"`; `m.applied` is the in-memory flag
that `load_migrations` sets to `false` for every migration. -/
def deploy_run (migrations : List Migration) (execOk : String → Bool) :
    DeployResult :=
  let pending := migrations.filter (fun m => !m.applied && !(m.meta.status == "failed"))
  if pending.isEmpty then
    { pending := pending, executed := [], failed := false, exitCode := 0 }
  else
    let r := deployLoop execOk pending
    { pending := pending, executed := r.1, failed := r.2,
      exitCode := if r.2 then 1 else 0 }

/-! ## Concrete fixtures

Concrete schemas, migrations and directories used to evaluate the embedded
functions on the literal scenarios of the specification. -/

/-- Sortedness of an association list by strictly increasing key, the
iteration discipline the specification prescribes for deterministic output. -/
def sortedByKey {α : Type} (l : List (String × α)) : Prop :=
  List.Pairwise (fun p q => p.1 < q.1) l

/-- Declared column `id bigint primary key` of the `users` scenario. -/
def idCol : Column :=
  { column_name := "id", data_type := "bigint", is_primary_key := true, is_not_null := true }

/-- Declared column `email varchar(255) not null unique` of the `users` scenario. -/
def emailCol : Column :=
  { column_name := "email", data_type := "varchar", size := some 255,
    is_not_null := true, is_unique := true }

/-- The `users` table with its column map iterated `email` before `id`. -/
def usersTableA : Table := { columns := [("email", emailCol), ("id", idCol)] }

/-- The `users` table with its column map iterated `id` before `email`. -/
def usersTableB : Table := { columns := [("id", idCol), ("email", emailCol)] }

/-- Declared schema holding only the `users` table. -/
def usersSchemaA : Schema := { tables := [("users", usersTableA)] }

/-- An empty live database. -/
def emptyDb : DbSchema := { tables := [], enums := [], dialect := "postgresql" }

/-- The statement `generate_create_table_sql` actually produces for the
`users` table. -/
def usersCreateSql : String :=
  "CREATE TABLE users (\n  PRIMARY KEY (id)\n,\n  email VARCHAR(255) NOT NULL\n);"

/-- Metadata of a migration whose persisted status is `applied`. -/
def appliedMeta : MigrationMeta :=
  { id := "1700000000_42", name := "create-users", created_at := "2023-11-14T22:13:20Z",
    dialect := "postgresql", checksum := none, status := "applied",
    created_by := none, applied_at := some "2023-11-14T22:13:25Z" }

/-- The in-memory record `load_migrations` builds for `appliedMeta`. -/
def appliedMigration : Migration :=
  { meta := appliedMeta,
    up_sql := "CREATE TABLE users (\n  PRIMARY KEY (id)\n,\n  email VARCHAR(255) NOT NULL\n);",
    down_sql := "DROP TABLE IF EXISTS users CASCADE;\n", applied := false, applied_at := none }

/-- A migrations directory holding exactly the `applied` migration. -/
def appliedDir : MigrationsDir :=
  { dirExists := true,
    entries := [{ isDir := true, meta := some (.ok appliedMeta),
                  upSql := some appliedMigration.up_sql,
                  downSql := some appliedMigration.down_sql }] }

/-- Declared column `c` of type `text`. -/
def declColC4 : Column := { column_name := "c", data_type := "text" }

/-- Declared table `t` with the single column `c`. -/
def tableC4 : Table := { columns := [("c", declColC4)] }

/-- Live column `c` of type `integer`: same name, different data type. -/
def liveColC4 : DbColumn :=
  { name := "c", data_type := "integer", is_nullable := true,
    is_primary_key := false, default_value := none, size := none }

/-- Live table `t` with the single column `c`. -/
def liveTableC4 : DbTable := { name := "t", columns := [("c", liveColC4)], primary_key := [] }

/-- Declared schema for the column-type-change scenario. -/
def schemaC4 : Schema := { tables := [("t", tableC4)] }

/-- Live schema for the column-type-change scenario. -/
def dbC4 : DbSchema := { tables := [("t", liveTableC4)], enums := [], dialect := "postgresql" }

/-- A table with no columns. -/
def tblEmpty : Table := { columns := [] }

/-- Two new tables with the map iterated `a` before `b`. -/
def schemaAB : Schema := { tables := [("a", tblEmpty), ("b", tblEmpty)] }

/-- The same two tables with the map iterated `b` before `a`. -/
def schemaBA : Schema := { tables := [("b", tblEmpty), ("a", tblEmpty)] }

/-- Declared column `n`, present only in the declared table, for the
determinism witness. -/
def wNewColC5 : Column := { column_name := "n", data_type := "text" }

/-- Declared table `t` for the determinism witness: column `n` only. -/
def wTableC5 : Table := { columns := [("n", wNewColC5)] }

/-- Declared schema for the determinism witness. -/
def wSchemaC5 : Schema := { tables := [("t", wTableC5)] }

/-- Live column `o`, present only in the live table, for the determinism
witness. -/
def wLiveColC5 : DbColumn :=
  { name := "o", data_type := "text", is_nullable := true,
    is_primary_key := false, default_value := none, size := none }

/-- Live table `t` for the determinism witness: column `o` only. -/
def wLiveTableC5 : DbTable := { name := "t", columns := [("o", wLiveColC5)], primary_key := [] }

/-- Live schema for the determinism witness; diffing `wSchemaC5` against it
adds column `n` and drops column `o`, so both internally built column maps
are non-empty. -/
def wDbC5 : DbSchema := { tables := [("t", wLiveTableC5)], enums := [], dialect := "postgresql" }

/-- Declared schema carrying an enum absent from the live database. -/
def schemaEnumJ : Schema := { tables := [], enums := some [("mood", ["happy", "sad"])] }

/-- Live schema carrying an enum absent from the declared document. -/
def dbEnumD : DbSchema := { tables := [], enums := [("old_mood", ["x"])], dialect := "postgresql" }

/-- An existing migration whose checksum collides with the next diff when the
digest function returns `"h"`. -/
def dupMeta : MigrationMeta :=
  { id := "1690000000_7", name := "create-users", created_at := "2023-07-22T00:00:00Z",
    dialect := "postgresql", checksum := some "sha256:h", status := "draft",
    created_by := none, applied_at := none }

/-- The loaded record of `dupMeta`. -/
def dupMigration : Migration :=
  { meta := dupMeta, up_sql := "CREATE TABLE users ();", down_sql := "",
    applied := false, applied_at := none }

/-- A non-existent migrations directory (its entry list is irrelevant). -/
def missingDir : MigrationsDir :=
  { dirExists := false,
    entries := [{ isDir := true, meta := some (.ok appliedMeta), upSql := none, downSql := none }] }

/-- A migration subdirectory with parsable `meta.json` and optional scripts. -/
def mkEntry (m : MigrationMeta) (upC downC : Option String) : DirEntry :=
  { isDir := true, meta := some (.ok m), upSql := upC, downSql := downC }

/-- A migrations directory holding exactly `mkEntry m upC downC`. -/
def mkSingletonDir (m : MigrationMeta) (upC downC : Option String) : MigrationsDir :=
  { dirExists := true, entries := [mkEntry m upC downC] }

/-! ## Lexicographic facts about decimal ids -/

theorem natToDecAux_fuel : ∀ f g n, n < f → n < g → natToDecAux f n = natToDecAux g n := by
  intro f
  induction f with
  | zero => intro g n h; omega
  | succ f ih =>
    intro g n hf hg
    match g, hg with
    | g + 1, hg =>
      simp only [natToDecAux]
      by_cases h10 : n < 10
      · simp [h10]
      · simp only [h10, if_false]
        have hpos : 0 < n := by omega
        have hdiv : n / 10 < n := Nat.div_lt_self hpos (by norm_num)
        rw [ih g (n / 10) (by omega) (by omega)]

theorem natToDecAux_length_pos : ∀ f n, n < f → 0 < (natToDecAux f n).length := by
  intro f
  induction f with
  | zero => intro n h; omega
  | succ f ih =>
    intro n hf
    simp only [natToDecAux]
    by_cases h10 : n < 10
    · simp [h10]
    · simp [h10]

theorem digitChar_lt : ∀ a, a < 10 → ∀ b, b < 10 → a < b →
    Nat.digitChar a < Nat.digitChar b := by
  decide

theorem listLt_append_of_lt : ∀ {A B : List Char}, A.length = B.length →
    List.lt A B → ∀ (C D : List Char), List.lt (A ++ C) (B ++ D) := by
  intro A B hlen hlt
  induction hlt with
  | nil b bs => simp at hlen
  | head as bs hab => intro C D; exact List.lt.head _ _ hab
  | tail hab hba _ ih =>
    intro C D
    exact List.lt.tail hab hba (ih (by simpa using hlen) C D)

theorem listLt_append_left : ∀ (A : List Char) {C D : List Char},
    List.lt C D → List.lt (A ++ C) (A ++ D) := by
  intro A
  induction A with
  | nil => intro C D h; simpa using h
  | cons a A ih =>
    intro C D h
    exact List.lt.tail (lt_irrefl a) (lt_irrefl a) (ih h)

/-- Equally long decimal renderings are ordered like the numbers they render. -/
theorem natToDec_listLt : ∀ m n, n < m →
    (natToDecAux (n + 1) n).length = (natToDecAux (m + 1) m).length →
    List.lt (natToDecAux (n + 1) n) (natToDecAux (m + 1) m) := by
  intro m
  induction m using Nat.strong_induction_on with
  | _ m IH =>
    intro n hnm hlen
    by_cases hm10 : m < 10
    · have hn10 : n < 10 := by omega
      simp only [natToDecAux, if_pos hm10, if_pos hn10]
      exact List.lt.head _ _ (digitChar_lt n hn10 m hm10 hnm)
    · have hmpos : 0 < m := by omega
      have hmdiv : m / 10 < m := Nat.div_lt_self hmpos (by norm_num)
      by_cases hn10 : n < 10
      · exfalso
        simp only [natToDecAux, if_pos hn10, if_neg hm10] at hlen
        rw [List.length_append] at hlen
        simp only [List.length_singleton] at hlen
        have hp := natToDecAux_length_pos m (m / 10) (by omega)
        omega
      · have hnpos : 0 < n := by omega
        have hndiv : n / 10 < n := Nat.div_lt_self hnpos (by norm_num)
        simp only [natToDecAux, if_neg hn10, if_neg hm10] at hlen ⊢
        rw [natToDecAux_fuel n (n / 10 + 1) (n / 10) (by omega) (by omega)] at hlen ⊢
        rw [natToDecAux_fuel m (m / 10 + 1) (m / 10) (by omega) (by omega)] at hlen ⊢
        have hlen' : (natToDecAux (n / 10 + 1) (n / 10)).length
            = (natToDecAux (m / 10 + 1) (m / 10)).length := by
          simpa using hlen
        have hdivle : n / 10 ≤ m / 10 := Nat.div_le_div_right (le_of_lt hnm)
        rcases lt_or_eq_of_le hdivle with hdlt | hdeq
        · exact listLt_append_of_lt hlen' (IH (m / 10) hmdiv (n / 10) hdlt hlen') _ _
        · rw [hdeq]
          have hmod : n % 10 < m % 10 := by
            have h1 := Nat.div_add_mod n 10
            have h2 := Nat.div_add_mod m 10
            omega
          exact listLt_append_left _
            (List.lt.head _ _ (digitChar_lt (n % 10) (Nat.mod_lt n (by norm_num)) (m % 10)
              (Nat.mod_lt m (by norm_num)) hmod))

/-- Two association lists with the same entries that are both iterated in
strictly increasing key order are identical. -/
theorem sortedByKey_perm_eq {α : Type} {l₁ l₂ : List (String × α)}
    (hp : List.Perm l₁ l₂) (h₁ : sortedByKey l₁) (h₂ : sortedByKey l₂) : l₁ = l₂ := by
  haveI : IsAntisymm (String × α) (fun p q => p.1 < q.1) :=
    ⟨fun a b hab hba => absurd (lt_trans hab hba) (lt_irrefl _)⟩
  exact List.eq_of_perm_of_sorted hp h₁ h₂

/-! ## Claims -/

/-- C1, counterexample: for the `users` scenario (declared `id bigint primary
key`, `email varchar(255) not null unique`; live database empty) the
generated `CREATE TABLE` statement is not the exact string the specification
gives, under either iteration order of the two-column map: primary-key
columns are skipped by the column loop, so `id BIGINT NOT NULL` never
appears, and the statement is rendered across several lines. -/
theorem users_create_table_sql_ne_spec :
    generate_create_table_sql "users" usersTableA "postgresql"
        ≠ "CREATE TABLE users (PRIMARY KEY (id), email VARCHAR(255) NOT NULL, id BIGINT NOT NULL);"
    ∧ generate_create_table_sql "users" usersTableB "postgresql"
        ≠ "CREATE TABLE users (PRIMARY KEY (id), email VARCHAR(255) NOT NULL, id BIGINT NOT NULL);" :=
  ⟨by decide, by decide⟩

/-- C1, amended: for the `users` scenario the generated statement is exactly
`CREATE TABLE users (\n  PRIMARY KEY (id)\n,\n  email VARCHAR(255) NOT NULL\n);`
— the primary-key clause first, then only the non-primary-key columns in the
column map's iteration order (both orders give the same string here), and the
up SQL of the diff wraps that statement in a comment line and a trailing
newline. -/
theorem users_create_table_sql_actual :
    generate_create_table_sql "users" usersTableA "postgresql" = usersCreateSql
    ∧ generate_create_table_sql "users" usersTableB "postgresql" = usersCreateSql
    ∧ (compare_schemas usersSchemaA emptyDb).sql
        = "\n-- Create table users\n" ++ usersCreateSql ++ "\n" :=
  ⟨by decide, by decide, by decide⟩

/-- C2: a migration whose `meta.json` records status `applied` is loaded with
the in-memory `applied` flag `false`, passes the deploy filter
`!m.applied && m.meta.status != "failed"`, and its up SQL is executed again —
contradicting the stated filter (status neither `applied` nor `failed`) and
the source's own comment `Filter pending migrations (draft or reviewed, not
applied)`. -/
theorem deploy_reexecutes_applied_migration :
    load_migrations appliedDir = .ok [appliedMigration]
    ∧ appliedMigration.meta.status = "applied"
    ∧ (deploy_run [appliedMigration] (fun _ => true)).pending = [appliedMigration]
    ∧ (deploy_run [appliedMigration] (fun _ => true)).executed = ["1700000000_42"]
    ∧ (deploy_run [appliedMigration] (fun _ => true)).exitCode = 0 :=
  ⟨by decide, rfl, by decide, by decide, by decide⟩

/-- C3: the sync workflow never rewrites the persisted status after applying.
On the rollback path (failed execution, exit code 1) the stored migration
still has status `draft`, not `failed`; on the commit path it still has
status `draft`, not `applied`. -/
theorem sync_never_updates_status :
    ((sync_run (fun _ => "h") usersSchemaA emptyDb [] false false (some "create-users")
        "1700000000_42" "2023-11-14T22:13:20Z" none false).outcome = .applyFailed)
    ∧ ((sync_run (fun _ => "h") usersSchemaA emptyDb [] false false (some "create-users")
        "1700000000_42" "2023-11-14T22:13:20Z" none false).exitCode = 1)
    ∧ ((sync_run (fun _ => "h") usersSchemaA emptyDb [] false false (some "create-users")
        "1700000000_42" "2023-11-14T22:13:20Z" none false).store.map (fun m => m.meta.status)
        = ["draft"])
    ∧ ((sync_run (fun _ => "h") usersSchemaA emptyDb [] false false (some "create-users")
        "1700000000_42" "2023-11-14T22:13:20Z" none true).outcome = .appliedOk)
    ∧ ((sync_run (fun _ => "h") usersSchemaA emptyDb [] false false (some "create-users")
        "1700000000_42" "2023-11-14T22:13:20Z" none true).store.map (fun m => m.meta.status)
        = ["draft"]) :=
  ⟨by decide, by decide, by decide, by decide, by decide⟩

/-- C4, counterexample: table `t` and column `c` are present in both schemas
and the two column records differ in data type (`text` vs `integer`), yet the
diff's `alter_columns` is empty. -/
theorem alter_columns_empty_on_type_change :
    alistLookup schemaC4.tables "t" = some tableC4
    ∧ alistLookup dbC4.tables "t" = some liveTableC4
    ∧ alistLookup tableC4.columns "c" = some declColC4
    ∧ alistLookup liveTableC4.columns "c" = some liveColC4
    ∧ declColC4.data_type ≠ liveColC4.data_type
    ∧ (compare_schemas schemaC4 dbC4).alter_columns = [] :=
  ⟨by decide, by decide, by decide, by decide, by decide, rfl⟩

/-- C4, amended: `compare_schemas` never records a column alteration — for
every pair of input schemas its `alter_columns` map is empty; columns present
in both versions of a table are not compared attribute-by-attribute. -/
theorem compare_schemas_alter_columns_empty (j : Schema) (d : DbSchema) :
    (compare_schemas j d).alter_columns = [] := rfl

/-- C5, counterexample: the same pair of logical schemas presented with two
different iteration orders of the declared table map (as Rust's `HashMap`
does across two runs) yields different up-SQL bytes, so byte-identical output
across runs is not guaranteed and iteration is not sorted-by-name. -/
theorem compare_schemas_order_dependent :
    List.Perm schemaAB.tables schemaBA.tables
    ∧ (compare_schemas schemaAB emptyDb).sql ≠ (compare_schemas schemaBA emptyDb).sql := by
  constructor
  · decide
  · decide

/-- C5, amended: the planner output is a deterministic function of the
schemas together with the iteration orders of every mapping collection
involved — the two input table maps and the `create_columns` / `drop_columns`
maps the diff engine builds internally (both are `HashMap`s iterated in
per-process arbitrary order by the SQL-emission loops and by the rollback
generator).  Whenever two runs iterate all of these maps in sorted-by-name
order — the discipline the specification prescribes — the up SQL and the
rollback SQL are byte-identical.  The code itself iterates `HashMap`s at
both levels, so neither sortedness nor cross-run byte-identity is
guaranteed. -/
theorem compare_schemas_deterministic_of_sorted
    (ordC₁ ordC₂ : List (String × List DbColumn) → List (String × List DbColumn))
    (ordD₁ ordD₂ : List (String × List String) → List (String × List String))
    (j₁ j₂ : Schema) (d₁ d₂ : DbSchema)
    (hp : List.Perm j₁.tables j₂.tables)
    (hs₁ : sortedByKey j₁.tables) (hs₂ : sortedByKey j₂.tables)
    (hq : List.Perm d₁.tables d₂.tables)
    (ht₁ : sortedByKey d₁.tables) (ht₂ : sortedByKey d₂.tables)
    (hC₁ : List.Perm (ordC₁ (buildCreateColumns j₁.tables d₁.tables))
        (buildCreateColumns j₁.tables d₁.tables))
    (hC₁s : sortedByKey (ordC₁ (buildCreateColumns j₁.tables d₁.tables)))
    (hC₂ : List.Perm (ordC₂ (buildCreateColumns j₂.tables d₂.tables))
        (buildCreateColumns j₂.tables d₂.tables))
    (hC₂s : sortedByKey (ordC₂ (buildCreateColumns j₂.tables d₂.tables)))
    (hD₁ : List.Perm (ordD₁ (buildDropColumns j₁.tables d₁.tables).1)
        (buildDropColumns j₁.tables d₁.tables).1)
    (hD₁s : sortedByKey (ordD₁ (buildDropColumns j₁.tables d₁.tables).1))
    (hD₂ : List.Perm (ordD₂ (buildDropColumns j₂.tables d₂.tables).1)
        (buildDropColumns j₂.tables d₂.tables).1)
    (hD₂s : sortedByKey (ordD₂ (buildDropColumns j₂.tables d₂.tables).1)) :
    (compare_schemas_ord ordC₁ ordD₁ j₁ d₁).sql
      = (compare_schemas_ord ordC₂ ordD₂ j₂ d₂).sql
    ∧ (compare_schemas_ord ordC₁ ordD₁ j₁ d₁).generate_rollback
        = (compare_schemas_ord ordC₂ ordD₂ j₂ d₂).generate_rollback := by
  have e₁ : j₁.tables = j₂.tables := sortedByKey_perm_eq hp hs₁ hs₂
  have e₂ : d₁.tables = d₂.tables := sortedByKey_perm_eq hq ht₁ ht₂
  rw [e₁, e₂] at hC₁ hC₁s hD₁ hD₁s
  have hCeq : ordC₁ (buildCreateColumns j₂.tables d₂.tables)
      = ordC₂ (buildCreateColumns j₂.tables d₂.tables) :=
    sortedByKey_perm_eq (hC₁.trans hC₂.symm) hC₁s hC₂s
  have hDeq : ordD₁ (buildDropColumns j₂.tables d₂.tables).1
      = ordD₂ (buildDropColumns j₂.tables d₂.tables).1 :=
    sortedByKey_perm_eq (hD₁.trans hD₂.symm) hD₁s hD₂s
  have h : compare_schemas_ord ordC₁ ordD₁ j₁ d₁ = compare_schemas_ord ordC₂ ordD₂ j₂ d₂ := by
    simp only [compare_schemas_ord]
    rw [e₁, e₂, hCeq, hDeq]
  rw [h]
  exact ⟨rfl, rfl⟩

/-- C5, witness: the determinism theorem applied to a concrete run in which
every mapping collection is sorted — one declared and one live table, one
added column and one dropped column, so both internally built maps are
non-empty, iterated here in their (sorted) insertion order. -/
theorem compare_schemas_deterministic_of_sorted_witness :
    (compare_schemas_ord id id wSchemaC5 wDbC5).sql
      = (compare_schemas_ord id id wSchemaC5 wDbC5).sql
    ∧ (compare_schemas_ord id id wSchemaC5 wDbC5).generate_rollback
        = (compare_schemas_ord id id wSchemaC5 wDbC5).generate_rollback :=
  compare_schemas_deterministic_of_sorted id id id id wSchemaC5 wSchemaC5 wDbC5 wDbC5
    (List.Perm.refl _) (by simp [sortedByKey, wSchemaC5]) (by simp [sortedByKey, wSchemaC5])
    (List.Perm.refl _) (by simp [sortedByKey, wDbC5]) (by simp [sortedByKey, wDbC5])
    (List.Perm.refl _)
    (by
      show sortedByKey (buildCreateColumns wSchemaC5.tables wDbC5.tables)
      rw [show buildCreateColumns wSchemaC5.tables wDbC5.tables
          = [("t", [dbColumnOfJson "n" wNewColC5])] from by decide]
      simp [sortedByKey])
    (List.Perm.refl _)
    (by
      show sortedByKey (buildCreateColumns wSchemaC5.tables wDbC5.tables)
      rw [show buildCreateColumns wSchemaC5.tables wDbC5.tables
          = [("t", [dbColumnOfJson "n" wNewColC5])] from by decide]
      simp [sortedByKey])
    (List.Perm.refl _)
    (by
      show sortedByKey (buildDropColumns wSchemaC5.tables wDbC5.tables).1
      rw [show (buildDropColumns wSchemaC5.tables wDbC5.tables).1
          = [("t", ["o"])] from by decide]
      simp [sortedByKey])
    (List.Perm.refl _)
    (by
      show sortedByKey (buildDropColumns wSchemaC5.tables wDbC5.tables).1
      rw [show (buildDropColumns wSchemaC5.tables wDbC5.tables).1
          = [("t", ["o"])] from by decide]
      simp [sortedByKey])

/-- C6, counterexample: an enum present only in the declared schema does not
join `create_enums`, an enum present only in the live schema does not join
`drop_enums`, and removing the label `sad` from an enum present in both emits
no data-loss warning. -/
theorem compare_schemas_ignores_enums_cex :
    (compare_schemas schemaEnumJ dbEnumD).create_enums = []
    ∧ (compare_schemas schemaEnumJ dbEnumD).drop_enums = []
    ∧ (compare_schemas { tables := [], enums := some [("mood", ["happy"])] }
        { tables := [], enums := [("mood", ["happy", "sad"])],
          dialect := "postgresql" }).data_loss_warning = [] :=
  ⟨rfl, rfl, rfl⟩

/-- C6, amended: `compare_schemas` performs no enum comparison at all: its
`create_enums` and `drop_enums` are always empty, and its entire result is
unchanged under arbitrary replacement of either argument's enum map. -/
theorem compare_schemas_never_diffs_enums (j : Schema) (d : DbSchema)
    (e₁ e₂ : Option (List (String × List String))) (f₁ f₂ : List (String × List String)) :
    (compare_schemas j d).create_enums = [] ∧ (compare_schemas j d).drop_enums = []
    ∧ compare_schemas { j with enums := e₁ } { d with enums := f₁ }
        = compare_schemas { j with enums := e₂ } { d with enums := f₂ } :=
  ⟨rfl, rfl, rfl⟩

/-- C7, counterexample: two migrations created within the same second with
random suffixes 9 and then 10 receive the ids `1700000000_9` and
`1700000000_10`; the later id is lexicographically smaller than the earlier
one, so lexicographic id order does not equal creation order. -/
theorem migration_id_order_cex :
    migrationId 1700000000 10 < migrationId 1700000000 9
    ∧ ¬ (migrationId 1700000000 9 < migrationId 1700000000 10) := by
  constructor
  · rw [String.lt_iff_toList_lt]
    decide
  · rw [String.lt_iff_toList_lt]
    decide

/-- C7, amended: the later migration id is lexicographically greater whenever
the later creation falls in a strictly later unix second whose decimal
rendering has the same number of digits as the earlier one; within one second
the random suffix gives no ordering guarantee. -/
theorem migrationId_lt_of_ts_lt (t1 t2 s1 s2 : Nat) (h : t1 < t2)
    (hlen : (natToDec t1).length = (natToDec t2).length) :
    migrationId t1 s1 < migrationId t2 s2 := by
  have hlen2 : (natToDecAux (t1 + 1) t1).length = (natToDecAux (t2 + 1) t2).length := hlen
  have happ := listLt_append_of_lt hlen2 (natToDec_listLt t2 t1 h hlen2)
    ('_' :: natToDecAux (s1 + 1) s1) ('_' :: natToDecAux (s2 + 1) s2)
  rw [String.lt_iff_toList_lt]
  simp only [String.toList, migrationId, String.data_append, natToDec, List.append_assoc,
    List.singleton_append]
  exact (List.lt_iff_lex_lt _ _).mp happ

/-- C7, witness: ids allocated at consecutive seconds compare correctly even
when the suffixes would order the other way. -/
theorem migrationId_lt_of_ts_lt_witness :
    migrationId 1700000000 5 < migrationId 1700000001 999999 :=
  migrationId_lt_of_ts_lt 1700000000 1700000001 5 999999 (by decide) (by decide)

/-- C8: when the diff has changes, the force flag is off and some loaded
migration already carries the checksum of the freshly computed diff, the sync
workflow reports that a migration with the same changes already exists and
returns success (exit code 0) with the store unchanged — no migration
directory is created — and without submitting any DDL. -/
theorem sync_dedup_skips (hash : String → String) (j : Schema) (d : DbSchema)
    (existing : List Migration) (dry_run : Bool) (nameOpt : Option String)
    (freshId created_at : String) (created_by : Option String) (execOk : Bool)
    (hchanges : (compare_schemas j d).has_changes = true)
    (hdup : ∃ m ∈ existing, m.meta.checksum = some ((compare_schemas j d).checksum hash)) :
    ∃ nm, sync_run hash j d existing false dry_run nameOpt freshId created_at created_by execOk
      = { outcome := .alreadyExists nm, store := existing, ddlExecuted := false, exitCode := 0 } := by
  obtain ⟨m, hm, hcs⟩ := hdup
  have hsome : (existing.find?
      (fun m => m.meta.checksum == some ((compare_schemas j d).checksum hash))).isSome := by
    rw [List.find?_isSome]
    exact ⟨m, hm, by simp [hcs]⟩
  obtain ⟨m', hm'⟩ := Option.isSome_iff_exists.mp hsome
  refine ⟨m'.meta.name, ?_⟩
  simp only [sync_run, hchanges, Bool.not_true, Bool.false_eq_true, if_false, hm']

/-- C8, witness: the dedup theorem applied to the `users` scenario with one
existing migration whose checksum matches the diff under the digest function
that returns `"h"`. -/
theorem sync_dedup_skips_witness :
    ∃ nm, sync_run (fun _ => "h") usersSchemaA emptyDb [dupMigration] false false none
        "1700000000_1" "2023-11-14T22:13:20Z" none true
      = { outcome := .alreadyExists nm, store := [dupMigration],
          ddlExecuted := false, exitCode := 0 } :=
  sync_dedup_skips (fun _ => "h") usersSchemaA emptyDb [dupMigration] false none
    "1700000000_1" "2023-11-14T22:13:20Z" none true (by decide)
    ⟨dupMigration, by simp, by decide⟩

/-- C9: when the migrations directory does not exist, `load_migrations`
returns an empty list successfully instead of an error. -/
theorem load_migrations_missing_dir (dir : MigrationsDir) (h : dir.dirExists = false) :
    load_migrations dir = .ok [] := by
  unfold load_migrations
  rw [h]
  simp

/-- C9, witness: the missing-directory theorem applied to a concrete
non-existent directory. -/
theorem load_migrations_missing_dir_witness : load_migrations missingDir = .ok [] :=
  load_migrations_missing_dir missingDir rfl

/-- C10: a migration subdirectory with a parsable `meta.json` is returned by
`load_migrations` even when `up.sql` or `down.sql` is absent; each missing
script is loaded as the empty string. -/
theorem load_migrations_missing_scripts (m : MigrationMeta) (upC downC : Option String) :
    load_migrations (mkSingletonDir m upC downC)
      = .ok [{ meta := m, up_sql := upC.getD "", down_sql := downC.getD "",
               applied := false, applied_at := none }] := rfl
